import Mathlib

/-!
Shallow embedding of the adaptive quiz subsystem of the sigilRag repository
(src/explainer): learning-goal loading and per-user progress
(learning_goals_manager.py), question generation with fallback and answer
evaluation (quiz_system.py), and the adaptive progression state machine
driven by the quiz UI (quiz_ui.py).

Modelling conventions: Python strings are Lean String; Python str vs int
dict keys are the two constructors of GoalKey; Python dicts become
association lists in insertion order; the float success-rate comparison is
modelled as an exact rational comparison (see check_advancement_logic);
code that can raise returns Except.
-/

namespace SigilRag

/-- ASCII whitespace as stripped by Python str.strip (the characters that
occur in this code base). -/
def is_py_space (c : Char) : Bool :=
  c == ' ' || c == '\t' || c == '\n' || c == '\r'

/-- Python str.strip on a character list: drop leading and trailing
whitespace. -/
def py_strip_chars (l : List Char) : List Char :=
  ((l.dropWhile is_py_space).reverse.dropWhile is_py_space).reverse

/-- Python str.strip. -/
def py_strip (s : String) : String := String.mk (py_strip_chars s.data)

/-- Python str.lower. -/
def py_lower (s : String) : String := String.mk (s.data.map Char.toLower)

/-- Helper for Python str.split on the newline character: accumulate the
current line in reverse. -/
def split_chars : List Char → List Char → List (List Char)
  | [], acc => [acc.reverse]
  | c :: cs, acc =>
    if c = '\n' then acc.reverse :: split_chars cs [] else split_chars cs (c :: acc)

/-- Python content.split with separator newline. -/
def split_lines (s : String) : List String :=
  (split_chars s.data []).map String.mk

/-- A parsed learning goal, as built in
LearningGoalsManager._load_learning_goals (all four fields are Python
strings there). -/
structure LearningGoal where
  id : String
  number : String
  title : String
  description : String
deriving DecidableEq

/-- One iteration of the parsing loop in
LearningGoalsManager._load_learning_goals: `i` is the index of the line in
the stripped file content (Python enumerate), and a goal is produced only
when the stripped line starts with the bullet marker "- ". The id, number
and title are all derived from the line index `i`, not from the count of
bullets seen so far. -/
def goal_of_line (i : Nat) (raw_line : String) : Option LearningGoal :=
  let line := py_strip raw_line
  if ['-', ' '].isPrefixOf line.data then
    some { id := "goal_" ++ toString (i + 1)
         , number := toString (i + 1)
         , title := "Lernziel " ++ toString (i + 1)
         , description := py_strip (String.mk (line.data.drop 2)) }
  else none

/-- LearningGoalsManager._load_learning_goals restricted to its parsing of
the file content (file IO and the missing-file warning are outside the
model): strip the content, split into lines, and keep the bullet lines. -/
def load_learning_goals (content : String) : List LearningGoal :=
  ((split_lines (py_strip content)).enum).filterMap fun p => goal_of_line p.1 p.2

/-- A key of the Streamlit progress dict. Python distinguishes int keys
from str keys inside one dict, and both occur in this code base:
get_user_progress seeds str keys "goal_n" while _mark_goal_as_complete
writes the int key goal_index + 1. -/
inductive GoalKey
  | int_key (n : Nat)
  | str_key (s : String)
deriving DecidableEq

/-- The per-user progress dict, keyed by GoalKey, in insertion order. -/
abbrev UserProgress := List (GoalKey × Bool)

/-- Python d.get(k) / d[k] on the progress dict. -/
def lookup_progress (p : UserProgress) (k : GoalKey) : Option Bool :=
  (p.find? (fun e => e.1 == k)).map Prod.snd

/-- Python dict assignment d[k] = v: overwrite in place when the key is
present, append otherwise. -/
def set_key (p : UserProgress) (k : GoalKey) (v : Bool) : UserProgress :=
  if p.any (fun e => e.1 == k) then
    p.map (fun e => if e.1 == k then (k, v) else e)
  else p ++ [(k, v)]

/-- LearningGoalsManager.get_user_progress as first access initializes it:
every loaded goal's (string) id maps to False. -/
def get_user_progress (goals : List LearningGoal) : UserProgress :=
  goals.map fun g => (GoalKey.str_key g.id, false)

/-- LearningGoalsManager.update_goal_progress: store `completed` under the
key it is handed (the audit-log append is outside the model). -/
def update_goal_progress (p : UserProgress) (goal_id : GoalKey) (completed : Bool) :
    UserProgress :=
  set_key p goal_id completed

/-- QuizUI._mark_goal_as_complete: computes goal_id = goal_index + 1 (a
Python int, per its comment "Goal IDs are 1-based") and passes that int to
update_goal_progress. Note this is an int key, not the string id
"goal_n" of the goal. -/
def mark_goal_as_complete (p : UserProgress) (goal_index : Nat) : UserProgress :=
  update_goal_progress p (GoalKey.int_key (goal_index + 1)) true

/-- What QuizUI._advance_to_next_goal does after marking: move the pointer
or signal overall completion. -/
inductive AdvanceOutcome
  | next_goal (idx : Nat)
  | all_complete
deriving DecidableEq

/-- QuizUI._advance_to_next_goal: mark the current goal complete, then
either advance st.session_state.current_goal_index or show the
all-goals-complete message and switch to the checklist page. -/
def advance_to_next_goal (goals : List LearningGoal) (p : UserProgress)
    (current_goal_index : Nat) : UserProgress × AdvanceOutcome :=
  let p2 := mark_goal_as_complete p current_goal_index
  if current_goal_index + 1 < goals.length then
    (p2, AdvanceOutcome.next_goal (current_goal_index + 1))
  else
    (p2, AdvanceOutcome.all_complete)

/-- The two interface languages of the app. -/
inductive Language
  | english
  | german
deriving DecidableEq

/-- The difficulty levels held in quiz state ("medium" / "hard" strings in
Python; hard is reserved and unused by the decision logic). -/
inductive Difficulty
  | medium
  | hard
deriving DecidableEq

/-- The question dict produced by QuizSystem (generation or fallback).
Fields mirror the keys this code reads, with the Python .get defaults
materialized by total fields; correct_answer is the multiple-choice index
and correct_answers the fill-blank list (Python reuses one key name per
question type). The generated_at timestamp and the adaptive flag are
outside the model. -/
structure QuestionData where
  question_type : String
  question : String
  options : List String
  correct_answer : Nat
  correct_answers : List String
  sample_answer : String
  explanation : String
  language : Language
  is_fallback : Bool
deriving DecidableEq

/-- QuizSystem._get_fallback_question: the fixed-shape local
multiple-choice question synthesized from the goal description, in the
requested language. -/
def get_fallback_question (goal_description : String) (language : Language) :
    QuestionData :=
  match language with
  | Language.english =>
    { question_type := "multiple_choice"
    , question := "What is the main goal of '" ++ goal_description ++ "'?"
    , options :=
        [ "Understanding seal components"
        , "Practical application of seals"
        , "Theoretical analysis of seals"
        , "All of the above points" ]
    , correct_answer := 3
    , correct_answers := []
    , sample_answer := ""
    , explanation := "Learning objectives typically include both theoretical understanding and practical application."
    , language := Language.english
    , is_fallback := true }
  | Language.german =>
    { question_type := "multiple_choice"
    , question := "Was ist das Hauptziel von '" ++ goal_description ++ "'?"
    , options :=
        [ "Das Verständnis der Siegelkomponenten"
        , "Die praktische Anwendung von Siegeln"
        , "Die theoretische Analyse von Siegeln"
        , "Alle oben genannten Punkte" ]
    , correct_answer := 3
    , correct_answers := []
    , sample_answer := ""
    , explanation := "Lernziele umfassen typischerweise sowohl theoretisches Verständnis als auch praktische Anwendung."
    , language := Language.german
    , is_fallback := true }

/-- QuizSystem.generate_adaptive_quiz_question with its external effects
made explicit: client_available is whether the lazily loaded OpenAI client
exists, learning_content is the result of _load_learning_content (none on
miss), and service_response is the outcome of the chat-completion call
plus JSON parsing (none when the call raises, times out or returns
malformed JSON, since json.loads sits inside the same try). On the success
path the code stamps the question type, language and difficulty onto the
parsed dict; every failure path returns the fallback question. The prompt
construction from asked_questions and subjects_covered only feeds the
external call, so it does not appear in the result. -/
def generate_adaptive_quiz_question (goal_description : String)
    (language : Language) (difficulty_level : Difficulty)
    (client_available : Bool) (learning_content : Option String)
    (service_response : Option QuestionData) : QuestionData :=
  if client_available = false then get_fallback_question goal_description language
  else
    match learning_content with
    | none => get_fallback_question goal_description language
    | some _ =>
      match service_response with
      | none => get_fallback_question goal_description language
      | some q =>
        let _ := difficulty_level
        { q with question_type := "multiple_choice", language := language }

/-- The feedback dict returned by the evaluators: is_correct, the feedback
text, and the optional score key (present only for open-ended and
fill-blank results). The echoed correct_answer / correct_answers keys are
not modelled. -/
structure Feedback where
  is_correct : Bool
  feedback : String
  score : Option ℚ
deriving DecidableEq

/-- QuizSystem._evaluate_multiple_choice: pure local index comparison. -/
def evaluate_multiple_choice (q : QuestionData) (user_answer : Nat) : Feedback :=
  let correct_answer := q.correct_answer
  if user_answer = correct_answer then
    { is_correct := true
    , feedback := "✅ **Richtig!** " ++ q.explanation
    , score := none }
  else
    let correct_option :=
      if correct_answer < q.options.length then q.options.getD correct_answer ""
      else "Unbekannt"
    { is_correct := false
    , feedback := "❌ **Falsch.** Die richtige Antwort ist: " ++ correct_option
        ++ "\n\n" ++ q.explanation
    , score := none }

/-- QuizSystem._evaluate_open_ended with the external scoring call made
explicit: service_response is the parsed evaluation JSON, none when the
call raises or times out. The except branch returns the benefit-of-the-
doubt feedback instead of propagating the failure. -/
def evaluate_open_ended (q : QuestionData) (user_answer : String)
    (client_available : Bool) (service_response : Option Feedback) : Feedback :=
  if client_available = false ∨ py_strip user_answer = "" then
    { is_correct := false
    , feedback :=
        if py_strip user_answer = "" then "Bitte geben Sie eine Antwort ein."
        else "Bewertung nicht verfügbar."
    , score := some 0 }
  else
    match service_response with
    | some evaluation => evaluation
    | none =>
      { is_correct := true
      , feedback := "Ihre Antwort wurde eingereicht. " ++ q.explanation
      , score := some 75 }

/-- QuizSystem._evaluate_true_false. Python reads the same correct_answer
key as a bool there; the model compares against correct_answer ≠ 0 to keep
one field. -/
def evaluate_true_false (q : QuestionData) (user_answer : Bool) : Feedback :=
  let correct_answer := q.correct_answer ≠ 0
  if user_answer = correct_answer then
    { is_correct := true
    , feedback := "✅ **Richtig!** " ++ q.explanation
    , score := none }
  else
    { is_correct := false
    , feedback := "❌ **Falsch.** Die richtige Antwort ist: "
        ++ (if correct_answer then "Richtig" else "Falsch") ++ "\n\n" ++ q.explanation
    , score := none }

/-- The per-blank comparison of _evaluate_fill_blank: case-insensitive
equality after trimming, Python user_ans.strip().lower() ==
correct_ans.strip().lower(). -/
def blank_matches (p : String × String) : Bool :=
  py_lower (py_strip p.1) == py_lower (py_strip p.2)

/-- QuizSystem._evaluate_fill_blank. A length mismatch is rejected before
scoring; with both lists empty Python divides by zero computing the score,
hence the error branch. -/
def evaluate_fill_blank (q : QuestionData) (user_answers : List String) :
    Except String Feedback :=
  let correct_answers := q.correct_answers
  if user_answers.length ≠ correct_answers.length then
    Except.ok
      { is_correct := false
      , feedback := "Bitte füllen Sie alle Lücken aus."
      , score := none }
  else if correct_answers.length = 0 then Except.error "ZeroDivisionError"
  else
    let correct_count := (user_answers.zip correct_answers).countP blank_matches
    let is_correct := correct_count = correct_answers.length
    Except.ok
      { is_correct := is_correct
      , feedback :=
          if is_correct then "✅ **Richtig!** " ++ q.explanation
          else "❌ **Teilweise richtig (" ++ toString correct_count ++ "/"
            ++ toString correct_answers.length ++ ").** Korrekte Antworten: "
            ++ String.intercalate ", " correct_answers ++ "\n\n" ++ q.explanation
      , score := some ((correct_count : ℚ) / (correct_answers.length : ℚ) * 100) }

/-- The user answer value passed into evaluate_answer (Python passes an
int, str, bool or list depending on the question type). -/
inductive UserAnswer
  | choice (index : Nat)
  | text (answer : String)
  | boolean (value : Bool)
  | blanks (answers : List String)
deriving DecidableEq

/-- QuizSystem.evaluate_answer: dispatch on question_type. A value of the
wrong Python type for the branch would raise, modelled as an error. -/
def evaluate_answer (q : QuestionData) (ans : UserAnswer)
    (client_available : Bool) (service_response : Option Feedback) :
    Except String Feedback :=
  if q.question_type = "multiple_choice" then
    match ans with
    | UserAnswer.choice i => Except.ok (evaluate_multiple_choice q i)
    | _ => Except.error "TypeError"
  else if q.question_type = "open_ended" then
    match ans with
    | UserAnswer.text t => Except.ok (evaluate_open_ended q t client_available service_response)
    | _ => Except.error "TypeError"
  else if q.question_type = "true_false" then
    match ans with
    | UserAnswer.boolean b => Except.ok (evaluate_true_false q b)
    | _ => Except.error "TypeError"
  else if q.question_type = "fill_blank" then
    match ans with
    | UserAnswer.blanks l => evaluate_fill_blank q l
    | _ => Except.error "TypeError"
  else
    Except.ok { is_correct := false, feedback := "Unbekannter Fragetyp.", score := none }

/-- The advancement_phase strings of the quiz state. -/
inductive Phase
  | initial
  | second_round
  | ready_to_advance
  | recommend_training
deriving DecidableEq

/-- The quiz session dict st.session_state[quiz_key] created in
QuizUI.render_quiz_interface. -/
structure QuizState where
  current_question : Option QuestionData
  answered : Bool
  feedback : Option Feedback
  attempts : Nat
  correct_answers : Nat
  asked_questions : List String
  difficulty_level : Difficulty
  medium_questions_asked : Nat
  medium_questions_correct : Nat
  advancement_phase : Phase
  question_subjects : List String
  can_retry : Bool
  session_complete : Bool
deriving DecidableEq

/-- The fresh session dict from QuizUI.render_quiz_interface. -/
def initial_quiz_state : QuizState :=
  { current_question := none
  , answered := false
  , feedback := none
  , attempts := 0
  , correct_answers := 0
  , asked_questions := []
  , difficulty_level := Difficulty.medium
  , medium_questions_asked := 0
  , medium_questions_correct := 0
  , advancement_phase := Phase.initial
  , question_subjects := []
  , can_retry := false
  , session_complete := false }

/-- QuizUI._check_advancement_logic. The Python comparison is
success_rate >= 0.66 on floats; for the integer counters that occur the
comparison with the double nearest 0.66 coincides with the exact rational
comparison against 33/50 (two rationals with denominators below 2^50 never
separate the two bounds), so the model uses the exact rational. -/
def check_advancement_logic (s : QuizState) : QuizState :=
  let medium_asked := s.medium_questions_asked
  let medium_correct := s.medium_questions_correct
  if s.advancement_phase = Phase.initial ∧ medium_asked ≥ 3 then
    if (medium_correct : ℚ) / (medium_asked : ℚ) ≥ 33/50 then
      { s with advancement_phase := Phase.ready_to_advance, session_complete := true }
    else
      { s with advancement_phase := Phase.second_round
             , medium_questions_asked := 0
             , medium_questions_correct := 0 }
  else if s.advancement_phase = Phase.second_round ∧ medium_asked ≥ 3 then
    if (medium_correct : ℚ) / (medium_asked : ℚ) ≥ 33/50 then
      { s with advancement_phase := Phase.ready_to_advance, session_complete := true }
    else
      { s with advancement_phase := Phase.recommend_training, session_complete := true }
  else s

/-- QuizUI._submit_answer after the evaluator produced `fb`: the early
return when no current question exists leaves the state unchanged,
otherwise the counters, the retry flag and then the advancement check are
applied in the source's order. -/
def submit_answer (s : QuizState) (fb : Feedback) : QuizState :=
  match s.current_question with
  | none => s
  | some _ =>
    let s1 :=
      { s with answered := true
             , feedback := some fb
             , attempts := s.attempts + 1
             , correct_answers :=
                 if fb.is_correct then s.correct_answers + 1 else s.correct_answers }
    let s2 :=
      if s1.difficulty_level = Difficulty.medium then
        { s1 with medium_questions_asked := s1.medium_questions_asked + 1
                , medium_questions_correct :=
                    if fb.is_correct then s1.medium_questions_correct + 1
                    else s1.medium_questions_correct }
      else s1
    let s3 := { s2 with can_retry := !fb.is_correct }
    check_advancement_logic s3

/-- Whether the submit control in QuizUI._render_multiple_choice is active:
it is disabled exactly when the question is answered and no retry is
allowed (the correct-answer lock). -/
def submit_enabled (s : QuizState) : Bool :=
  !(s.answered && !s.can_retry)

/-- Pressing the submit / try-again control in
QuizUI._render_multiple_choice: a no-op while the control is disabled; on a
retry the answered flag and feedback are cleared before resubmitting the
same current question. -/
def click_submit (s : QuizState) (fb : Feedback) : QuizState :=
  if submit_enabled s then
    let s0 := if s.answered then { s with answered := false, feedback := none } else s
    submit_answer s0 fb
  else s

/-- QuizUI._get_question_hash: md5 over question text + str(options),
modelled as the stable pre-hash content itself (distinct content gives a
distinct fingerprint). -/
def question_fingerprint (q : QuestionData) : String :=
  q.question ++ String.intercalate "|" q.options

/-- The keyword table of QuizUI._extract_question_subject, in the source's
dict order. -/
def subject_keywords : List (String × List String) :=
  [ ("population_frame", ["population", "bevölkerung", "frame", "rahmen", "einwohner"])
  , ("capital_crown", ["capital", "hauptstadt", "crown", "krone", "federal", "bundes"])
  , ("location_circle", ["location", "lage", "circle", "kreis", "orientation", "orientierung"])
  , ("state_background", ["state", "bundesland", "background", "hintergrund", "color", "farbe"]) ]

/-- Whether `keyword` occurs as a contiguous sublist of `text`. -/
def contains_sub_chars (keyword : List Char) : List Char → Bool
  | [] => keyword.isEmpty
  | c :: rest => keyword.isPrefixOf (c :: rest) || contains_sub_chars keyword rest

/-- Python `keyword in question_text` substring test. -/
def contains_sub (text keyword : String) : Bool :=
  contains_sub_chars keyword.data text.data

/-- QuizUI._extract_question_subject: the first subject in dict order one
of whose keywords occurs in the lowercased question text, else general. -/
def extract_question_subject (q : QuestionData) : String :=
  let question_text := py_lower q.question
  match subject_keywords.find? (fun p => p.2.any (contains_sub question_text)) with
  | some p => p.1
  | none => "general"

/-- The question-tracking part of QuizUI._generate_adaptive_question after
a question was produced: record its fingerprint, and its subject when not
yet covered. -/
def track_question (s : QuizState) (q : QuestionData) : QuizState :=
  let s1 := { s with current_question := some q
                   , asked_questions := s.asked_questions ++ [question_fingerprint q] }
  let subject := extract_question_subject q
  if subject ∈ s1.question_subjects then s1
  else { s1 with question_subjects := s1.question_subjects ++ [subject] }

/-- The New-Question action of QuizUI._render_post_feedback_actions: clear
the current question, answered flag and feedback, so the next render
generates a fresh question. -/
def request_new_question (s : QuizState) : QuizState :=
  { s with current_question := none, answered := false, feedback := none }

/-- A user interaction against one quiz session: serve a newly generated
question, or submit an answer whose evaluation is `fb`. -/
inductive QuizEvent
  | new_question (q : QuestionData)
  | submit (fb : Feedback)

/-- One interaction step of the quiz UI state machine. -/
def quiz_step (s : QuizState) : QuizEvent → QuizState
  | QuizEvent.new_question q => track_question (request_new_question s) q
  | QuizEvent.submit fb => click_submit s fb

/-- The counter invariants of the session (spec P1). -/
def counters_ok (s : QuizState) : Prop :=
  s.correct_answers ≤ s.attempts ∧
  s.medium_questions_correct ≤ s.medium_questions_asked

/-- A concrete medium multiple-choice question used to instantiate the
theorems below. -/
def sample_question : QuestionData :=
  { question_type := "multiple_choice"
  , question := "Welche Komponente zeigt die Einwohnerzahl?"
  , options := ["Krone", "Rahmen", "Kreis", "Hintergrund"]
  , correct_answer := 1
  , correct_answers := []
  , sample_answer := ""
  , explanation := "Der Rahmen kodiert die Einwohnerzahl."
  , language := Language.german
  , is_fallback := false }

/-- Feedback for a wrong multiple-choice answer to sample_question. -/
def wrong_feedback : Feedback := evaluate_multiple_choice sample_question 0

/-- Feedback for the right multiple-choice answer to sample_question. -/
def right_feedback : Feedback := evaluate_multiple_choice sample_question 1

/-- A concrete open-ended question for the evaluator theorems. -/
def sample_open_question : QuestionData :=
  { question_type := "open_ended"
  , question := "Erklären Sie die Funktion der Krone."
  , options := []
  , correct_answer := 0
  , correct_answers := []
  , sample_answer := "Die Krone zeigt den Hauptstadtstatus an."
  , explanation := "Die Krone zeigt den Hauptstadtstatus an."
  , language := Language.german
  , is_fallback := false }

/-- A concrete fill-blank question with correct answers Bayern / rot. -/
def sample_blank_question : QuestionData :=
  { question_type := "fill_blank"
  , question := "Das Siegel nutzt den Hintergrund von ___ in der Farbe ___."
  , options := []
  , correct_answer := 0
  , correct_answers := ["Bayern", "rot"]
  , sample_answer := ""
  , explanation := "Der Hintergrund kommt vom Bundesland."
  , language := Language.german
  , is_fallback := false }

/-- A session in the initial phase two medium answers in, both correct,
with a question on screen. -/
def two_correct_state : QuizState :=
  { initial_quiz_state with
      current_question := some sample_question
    , attempts := 2
    , correct_answers := 2
    , asked_questions := [question_fingerprint sample_question]
    , medium_questions_asked := 2
    , medium_questions_correct := 2
    , question_subjects := ["population_frame"] }

/-- A session in the second round two medium answers in, none correct,
with a question on screen. -/
def second_round_state : QuizState :=
  { initial_quiz_state with
      current_question := some sample_question
    , attempts := 5
    , correct_answers := 1
    , asked_questions := [question_fingerprint sample_question]
    , advancement_phase := Phase.second_round
    , medium_questions_asked := 2
    , medium_questions_correct := 0
    , question_subjects := ["population_frame"] }

/-- The state reached from a fresh session by serving sample_question and
answering it wrongly twice (the second time as a retry). -/
def pre_threshold_state : QuizState :=
  { current_question := some sample_question
  , answered := true
  , feedback := some wrong_feedback
  , attempts := 2
  , correct_answers := 0
  , asked_questions := [question_fingerprint sample_question]
  , difficulty_level := Difficulty.medium
  , medium_questions_asked := 2
  , medium_questions_correct := 0
  , advancement_phase := Phase.initial
  , question_subjects := ["population_frame"]
  , can_retry := true
  , session_complete := false }

/-- The intermediate state of the third wrong submission, right before
_check_advancement_logic runs. -/
def threshold_state : QuizState :=
  { pre_threshold_state with
      answered := true
    , feedback := some wrong_feedback
    , attempts := 3
    , medium_questions_asked := 3
    , medium_questions_correct := 0
    , can_retry := true }

/-- The state after a first wrong answer to sample_question: answered,
retry allowed, one medium answer counted. -/
def mid_retry_state : QuizState :=
  { pre_threshold_state with
      attempts := 1
    , medium_questions_asked := 1 }

/-- A fresh session taken through one served question and three wrong
submissions of that same question (two of them retries). -/
def one_question_run : QuizState :=
  [ QuizEvent.new_question sample_question
  , QuizEvent.submit wrong_feedback
  , QuizEvent.submit wrong_feedback
  , QuizEvent.submit wrong_feedback ].foldl quiz_step initial_quiz_state

/-- The success-rate comparison over the integer counters is the integer
inequality 33 * asked ≤ 50 * correct. -/
lemma rate_ge_iff (c a : Nat) (ha : 0 < a) :
    ((c : ℚ) / (a : ℚ) ≥ 33/50) ↔ 33 * a ≤ 50 * c := by
  rw [ge_iff_le, div_le_div_iff₀ (by norm_num : (0:ℚ) < 50) (by exact_mod_cast ha)]
  constructor
  · intro h
    have h2 : (33 * a : ℚ) ≤ 50 * c := by linarith
    exact_mod_cast h2
  · intro h
    have h2 : (33 * a : ℚ) ≤ 50 * c := by exact_mod_cast h
    linarith

/-- The advancement check does nothing below the three-answer threshold. -/
lemma check_below_threshold (s : QuizState) (h : s.medium_questions_asked < 3) :
    check_advancement_logic s = s := by
  unfold check_advancement_logic
  have h3 : ¬ (3 ≤ s.medium_questions_asked) := by omega
  simp [h3]

/-- The advancement check in the initial phase at the threshold with a
passing rate. -/
lemma check_initial_pass (s : QuizState) (h1 : s.advancement_phase = Phase.initial)
    (h2 : 3 ≤ s.medium_questions_asked)
    (h3 : 33 * s.medium_questions_asked ≤ 50 * s.medium_questions_correct) :
    check_advancement_logic s =
      { s with advancement_phase := Phase.ready_to_advance, session_complete := true } := by
  unfold check_advancement_logic
  have hrate := (rate_ge_iff s.medium_questions_correct s.medium_questions_asked (by omega)).2 h3
  simp [h1, h2, hrate]

/-- The advancement check in the initial phase at the threshold with a
failing rate: counters reset and the second round starts. -/
lemma check_initial_fail (s : QuizState) (h1 : s.advancement_phase = Phase.initial)
    (h2 : 3 ≤ s.medium_questions_asked)
    (h3 : 50 * s.medium_questions_correct < 33 * s.medium_questions_asked) :
    check_advancement_logic s =
      { s with advancement_phase := Phase.second_round
             , medium_questions_asked := 0
             , medium_questions_correct := 0 } := by
  unfold check_advancement_logic
  have hrate : ¬ ((s.medium_questions_correct : ℚ) / (s.medium_questions_asked : ℚ) ≥ 33/50) := by
    rw [rate_ge_iff s.medium_questions_correct s.medium_questions_asked (by omega)]
    omega
  simp [h1, h2, hrate]

/-- The advancement check in the second round at the threshold with a
passing rate. -/
lemma check_second_pass (s : QuizState) (h1 : s.advancement_phase = Phase.second_round)
    (h2 : 3 ≤ s.medium_questions_asked)
    (h3 : 33 * s.medium_questions_asked ≤ 50 * s.medium_questions_correct) :
    check_advancement_logic s =
      { s with advancement_phase := Phase.ready_to_advance, session_complete := true } := by
  unfold check_advancement_logic
  have hrate := (rate_ge_iff s.medium_questions_correct s.medium_questions_asked (by omega)).2 h3
  simp [h1, h2, hrate]

/-- The advancement check in the second round at the threshold with a
failing rate: remediation, and the session still completes. -/
lemma check_second_fail (s : QuizState) (h1 : s.advancement_phase = Phase.second_round)
    (h2 : 3 ≤ s.medium_questions_asked)
    (h3 : 50 * s.medium_questions_correct < 33 * s.medium_questions_asked) :
    check_advancement_logic s =
      { s with advancement_phase := Phase.recommend_training, session_complete := true } := by
  unfold check_advancement_logic
  have hrate : ¬ ((s.medium_questions_correct : ℚ) / (s.medium_questions_asked : ℚ) ≥ 33/50) := by
    rw [rate_ge_iff s.medium_questions_correct s.medium_questions_asked (by omega)]
    omega
  simp [h1, h2, hrate]

/-- Projection form of check_initial_pass. -/
lemma check_initial_pass_proj (s : QuizState) (h1 : s.advancement_phase = Phase.initial)
    (h2 : 3 ≤ s.medium_questions_asked)
    (h3 : 33 * s.medium_questions_asked ≤ 50 * s.medium_questions_correct) :
    (check_advancement_logic s).advancement_phase = Phase.ready_to_advance ∧
    (check_advancement_logic s).session_complete = true := by
  rw [check_initial_pass s h1 h2 h3]
  exact ⟨rfl, rfl⟩

/-- Projection form of check_initial_fail. -/
lemma check_initial_fail_proj (s : QuizState) (h1 : s.advancement_phase = Phase.initial)
    (h2 : 3 ≤ s.medium_questions_asked)
    (h3 : 50 * s.medium_questions_correct < 33 * s.medium_questions_asked)
    (h4 : s.session_complete = false) :
    (check_advancement_logic s).advancement_phase = Phase.second_round ∧
    (check_advancement_logic s).medium_questions_asked = 0 ∧
    (check_advancement_logic s).medium_questions_correct = 0 ∧
    (check_advancement_logic s).session_complete = false := by
  rw [check_initial_fail s h1 h2 h3]
  exact ⟨rfl, rfl, rfl, h4⟩

/-- Projection form of check_second_pass. -/
lemma check_second_pass_proj (s : QuizState) (h1 : s.advancement_phase = Phase.second_round)
    (h2 : 3 ≤ s.medium_questions_asked)
    (h3 : 33 * s.medium_questions_asked ≤ 50 * s.medium_questions_correct) :
    (check_advancement_logic s).advancement_phase = Phase.ready_to_advance ∧
    (check_advancement_logic s).session_complete = true := by
  rw [check_second_pass s h1 h2 h3]
  exact ⟨rfl, rfl⟩

/-- Projection form of check_second_fail. -/
lemma check_second_fail_proj (s : QuizState) (h1 : s.advancement_phase = Phase.second_round)
    (h2 : 3 ≤ s.medium_questions_asked)
    (h3 : 50 * s.medium_questions_correct < 33 * s.medium_questions_asked) :
    (check_advancement_logic s).advancement_phase = Phase.recommend_training ∧
    (check_advancement_logic s).session_complete = true := by
  rw [check_second_fail s h1 h2 h3]
  exact ⟨rfl, rfl⟩

/-- The advancement check never leaves a terminal phase. -/
lemma check_terminal (s : QuizState)
    (h : s.advancement_phase = Phase.ready_to_advance ∨
         s.advancement_phase = Phase.recommend_training) :
    check_advancement_logic s = s := by
  unfold check_advancement_logic
  rcases h with h | h <;> simp [h]

/-- The advancement check touches only the phase, the medium counters and
the completion flag. -/
lemma check_preserves (s : QuizState) :
    (check_advancement_logic s).current_question = s.current_question ∧
    (check_advancement_logic s).answered = s.answered ∧
    (check_advancement_logic s).can_retry = s.can_retry ∧
    (check_advancement_logic s).attempts = s.attempts ∧
    (check_advancement_logic s).correct_answers = s.correct_answers ∧
    (check_advancement_logic s).asked_questions = s.asked_questions ∧
    (check_advancement_logic s).difficulty_level = s.difficulty_level := by
  unfold check_advancement_logic
  dsimp only
  split_ifs <;> simp

/-- _submit_answer on a state with a question on screen and medium
difficulty, written as the advancement check of the explicitly updated
record. -/
lemma submit_answer_eq (s : QuizState) (fb : Feedback) (q : QuestionData)
    (hq : s.current_question = some q)
    (hdiff : s.difficulty_level = Difficulty.medium) :
    submit_answer s fb = check_advancement_logic
      { s with answered := true
             , feedback := some fb
             , attempts := s.attempts + 1
             , correct_answers :=
                 if fb.is_correct then s.correct_answers + 1 else s.correct_answers
             , medium_questions_asked := s.medium_questions_asked + 1
             , medium_questions_correct :=
                 if fb.is_correct then s.medium_questions_correct + 1
                 else s.medium_questions_correct
             , can_retry := !fb.is_correct } := by
  unfold submit_answer
  rw [hq]
  simp [hdiff]

/-- A submission never moves the phase out of a terminal phase. -/
lemma submit_preserves_terminal_phase (s : QuizState) (fb : Feedback)
    (h : s.advancement_phase = Phase.ready_to_advance ∨
         s.advancement_phase = Phase.recommend_training) :
    (submit_answer s fb).advancement_phase = s.advancement_phase := by
  unfold submit_answer
  cases hq : s.current_question with
  | none => rfl
  | some q =>
    dsimp only
    rw [check_terminal]
    · split_ifs <;> rfl
    · split_ifs <;> simpa using h

/-- The counter invariants survive the advancement check. -/
lemma counters_ok_check (s : QuizState) (h : counters_ok s) :
    counters_ok (check_advancement_logic s) := by
  obtain ⟨h1, h2⟩ := h
  unfold check_advancement_logic
  dsimp only
  split_ifs <;> refine ⟨?_, ?_⟩ <;> (try dsimp only) <;> omega

/-- The counter invariants survive _submit_answer. -/
lemma counters_ok_submit (s : QuizState) (fb : Feedback) (h : counters_ok s) :
    counters_ok (submit_answer s fb) := by
  obtain ⟨h1, h2⟩ := h
  unfold submit_answer
  cases hq : s.current_question with
  | none => exact ⟨h1, h2⟩
  | some q =>
    dsimp only
    apply counters_ok_check
    constructor
    · dsimp only
      split_ifs <;> dsimp only <;> omega
    · dsimp only
      split_ifs <;> dsimp only <;> omega

/-- The counter invariants survive a submit click. -/
lemma counters_ok_click (s : QuizState) (fb : Feedback) (h : counters_ok s) :
    counters_ok (click_submit s fb) := by
  unfold click_submit
  by_cases he : submit_enabled s = true
  · rw [if_pos he]
    by_cases ha : s.answered = true
    · rw [if_pos ha]
      exact counters_ok_submit _ fb h
    · rw [if_neg ha]
      exact counters_ok_submit _ fb h
  · rw [if_neg he]
    exact h

/-- The counter invariants survive any interaction step. -/
lemma counters_ok_step (s : QuizState) (e : QuizEvent) (h : counters_ok s) :
    counters_ok (quiz_step s e) := by
  cases e with
  | new_question q =>
    unfold quiz_step track_question request_new_question
    dsimp only
    split_ifs <;> exact h
  | submit fb => exact counters_ok_click s fb h

/-- The counter invariants survive any interaction sequence. -/
lemma counters_ok_foldl (events : List QuizEvent) (s : QuizState) (h : counters_ok s) :
    counters_ok (events.foldl quiz_step s) := by
  induction events generalizing s with
  | nil => exact h
  | cons e rest ih => exact ih (quiz_step s e) (counters_ok_step s e h)

/-- Parsing a run of lines that are all bullet lines, starting at line
index n: every line yields a goal, numbered by its line position. -/
lemma goals_numbering_aux (lines : List String) (n : Nat)
    (h : ∀ l ∈ lines, (['-', ' '].isPrefixOf (py_strip l).data) = true) :
    (((List.enumFrom n lines).filterMap fun p => goal_of_line p.1 p.2).map
        LearningGoal.number = (List.range' (n+1) lines.length).map toString) ∧
    (((List.enumFrom n lines).filterMap fun p => goal_of_line p.1 p.2).map
        LearningGoal.description =
      lines.map fun l => py_strip (String.mk ((py_strip l).data.drop 2))) := by
  induction lines generalizing n with
  | nil => simp
  | cons l rest ih =>
    have hl := h l (List.mem_cons_self l rest)
    have hrest : ∀ x ∈ rest, (['-', ' '].isPrefixOf (py_strip x).data) = true :=
      fun x hx => h x (List.mem_cons_of_mem l hx)
    obtain ⟨ih1, ih2⟩ := ih (n + 1) hrest
    constructor
    · simp only [List.enumFrom, List.filterMap_cons, List.length_cons, List.range']
      rw [goal_of_line, if_pos hl]
      simp only [List.map_cons, ih1]
    · simp only [List.enumFrom, List.filterMap_cons]
      rw [goal_of_line, if_pos hl]
      simp only [List.map_cons, ih2]

/-- C1: for a session in the initial phase, once a medium-difficulty answer
is recorded so that mediumAsked reaches at least 3, a success rate of at
least 0.66 moves the phase to ready_to_advance and completes the session,
while a lower rate moves it to second_round with both medium counters reset
to 0 and the session still incomplete. -/
theorem initial_phase_threshold_decision (s : QuizState) (fb : Feedback)
    (q : QuestionData)
    (hq : s.current_question = some q)
    (hphase : s.advancement_phase = Phase.initial)
    (hdiff : s.difficulty_level = Difficulty.medium)
    (hcomplete : s.session_complete = false)
    (hthresh : 3 ≤ s.medium_questions_asked + 1) :
    let a := s.medium_questions_asked + 1
    let c := if fb.is_correct then s.medium_questions_correct + 1
             else s.medium_questions_correct
    let t := submit_answer s fb
    ((c : ℚ) / (a : ℚ) ≥ 33/50 →
      t.advancement_phase = Phase.ready_to_advance ∧ t.session_complete = true) ∧
    (¬ ((c : ℚ) / (a : ℚ) ≥ 33/50) →
      t.advancement_phase = Phase.second_round ∧
      t.medium_questions_asked = 0 ∧
      t.medium_questions_correct = 0 ∧
      t.session_complete = false) := by
  dsimp only
  rw [submit_answer_eq s fb q hq hdiff]
  have hpos : 0 < s.medium_questions_asked + 1 := Nat.succ_pos _
  constructor
  · intro hrate
    have hnat := (rate_ge_iff _ _ hpos).1 hrate
    apply check_initial_pass_proj
    · exact hphase
    · exact hthresh
    · exact hnat
  · intro hrate
    have hnat : 50 * (if fb.is_correct then s.medium_questions_correct + 1
        else s.medium_questions_correct) < 33 * (s.medium_questions_asked + 1) := by
      have hiff := rate_ge_iff
        (if fb.is_correct then s.medium_questions_correct + 1
         else s.medium_questions_correct) (s.medium_questions_asked + 1) hpos
      have : ¬ (33 * (s.medium_questions_asked + 1) ≤
          50 * (if fb.is_correct then s.medium_questions_correct + 1
                else s.medium_questions_correct)) :=
        fun hcon => hrate (hiff.2 hcon)
      omega
    apply check_initial_fail_proj
    · exact hphase
    · exact hthresh
    · exact hnat
    · exact hcomplete

/-- C2: for a session in the second round, once a medium-difficulty answer
is recorded so that the round's mediumAsked reaches at least 3, a success
rate of at least 0.66 moves the phase to ready_to_advance and a lower rate
to recommend_training, the session completing in either branch; the check
and further submissions leave a terminal phase in place, so no automatic
transition follows without user action. -/
theorem second_round_threshold_decision (s : QuizState) (fb : Feedback)
    (q : QuestionData)
    (hq : s.current_question = some q)
    (hphase : s.advancement_phase = Phase.second_round)
    (hdiff : s.difficulty_level = Difficulty.medium)
    (hthresh : 3 ≤ s.medium_questions_asked + 1) :
    let a := s.medium_questions_asked + 1
    let c := if fb.is_correct then s.medium_questions_correct + 1
             else s.medium_questions_correct
    let t := submit_answer s fb
    ((c : ℚ) / (a : ℚ) ≥ 33/50 →
      t.advancement_phase = Phase.ready_to_advance ∧ t.session_complete = true) ∧
    (¬ ((c : ℚ) / (a : ℚ) ≥ 33/50) →
      t.advancement_phase = Phase.recommend_training ∧ t.session_complete = true) ∧
    (∀ u : QuizState, ∀ fb2 : Feedback,
      (u.advancement_phase = Phase.ready_to_advance ∨
       u.advancement_phase = Phase.recommend_training) →
      check_advancement_logic u = u ∧
      (submit_answer u fb2).advancement_phase = u.advancement_phase) := by
  dsimp only
  rw [submit_answer_eq s fb q hq hdiff]
  have hpos : 0 < s.medium_questions_asked + 1 := Nat.succ_pos _
  refine ⟨?_, ?_, ?_⟩
  · intro hrate
    have hnat := (rate_ge_iff _ _ hpos).1 hrate
    apply check_second_pass_proj
    · exact hphase
    · exact hthresh
    · exact hnat
  · intro hrate
    have hnat : 50 * (if fb.is_correct then s.medium_questions_correct + 1
        else s.medium_questions_correct) < 33 * (s.medium_questions_asked + 1) := by
      have hiff := rate_ge_iff
        (if fb.is_correct then s.medium_questions_correct + 1
         else s.medium_questions_correct) (s.medium_questions_asked + 1) hpos
      have : ¬ (33 * (s.medium_questions_asked + 1) ≤
          50 * (if fb.is_correct then s.medium_questions_correct + 1
                else s.medium_questions_correct)) :=
        fun hcon => hrate (hiff.2 hcon)
      omega
    apply check_second_fail_proj
    · exact hphase
    · exact hthresh
    · exact hnat
  · intro u fb2 hu
    exact ⟨check_terminal u hu, submit_preserves_terminal_phase u fb2 hu⟩

/-- C1 witness: two correct medium answers, then a wrong third one — the
rate 2/3 still passes and the session completes ready to advance. -/
theorem initial_phase_threshold_decision_witness :
    (submit_answer two_correct_state wrong_feedback).advancement_phase
        = Phase.ready_to_advance ∧
    (submit_answer two_correct_state wrong_feedback).session_complete = true := by
  have h := (initial_phase_threshold_decision two_correct_state wrong_feedback
    sample_question rfl rfl rfl rfl (by decide)).1
  apply h
  have hfb : wrong_feedback.is_correct = false := by decide
  rw [hfb]
  norm_num [two_correct_state, initial_quiz_state]

/-- C2 witness: a second round scoring 0 of 3 ends in recommend_training
with the session complete. -/
theorem second_round_threshold_decision_witness :
    (submit_answer second_round_state wrong_feedback).advancement_phase
        = Phase.recommend_training ∧
    (submit_answer second_round_state wrong_feedback).session_complete = true := by
  have h := (second_round_threshold_decision second_round_state wrong_feedback
    sample_question rfl rfl rfl (by decide)).2.1
  apply h
  have hfb : wrong_feedback.is_correct = false := by decide
  rw [hfb]
  norm_num [second_round_state, initial_quiz_state]

/-- C4: after every evaluated submission, canRetry is the negation of the
feedback's isCorrect, the current question stays on screen, and the submit
control stays enabled exactly when the answer was incorrect — a correct
answer locks the question, an incorrect one lets the same question be
resubmitted. -/
theorem retry_gating (s : QuizState) (fb : Feedback) (q : QuestionData)
    (hq : s.current_question = some q) :
    (submit_answer s fb).can_retry = !fb.is_correct ∧
    (submit_answer s fb).current_question = some q ∧
    (submit_answer s fb).answered = true ∧
    submit_enabled (submit_answer s fb) = !fb.is_correct := by
  unfold submit_answer
  rw [hq]
  dsimp only
  by_cases hd : s.difficulty_level = Difficulty.medium <;>
    [rw [if_pos hd]; rw [if_neg hd]] <;>
  · obtain ⟨hcq, hans, hret, -⟩ := check_preserves _
    refine ⟨hret, hcq, hans, ?_⟩
    unfold submit_enabled
    rw [hans, hret]
    cases fb.is_correct <;> rfl

/-- C4 witness: a correct answer locks the question, with canRetry false
and the submit control disabled. -/
theorem retry_gating_witness :
    (submit_answer two_correct_state right_feedback).can_retry = false ∧
    (submit_answer two_correct_state right_feedback).current_question
        = some sample_question ∧
    (submit_answer two_correct_state right_feedback).answered = true ∧
    submit_enabled (submit_answer two_correct_state right_feedback) = false := by
  have h := retry_gating two_correct_state right_feedback sample_question rfl
  have hfb : (!right_feedback.is_correct) = false := by decide
  rw [hfb] at h
  exact h

/-- C5: whenever question generation cannot use the external service — no
client, missing learning content, or a failed/malformed service call — the
generator returns the deterministic fallback multiple-choice question
synthesized from the goal description, with exactly 4 options and correct
answer index 3. -/
theorem generation_failure_returns_fallback (goal_description : String)
    (language : Language) (difficulty_level : Difficulty)
    (client_available : Bool) (learning_content : Option String)
    (service_response : Option QuestionData)
    (hfail : client_available = false ∨ learning_content = none ∨
             service_response = none) :
    let r := generate_adaptive_quiz_question goal_description language
      difficulty_level client_available learning_content service_response
    r = get_fallback_question goal_description language ∧
    r.question_type = "multiple_choice" ∧
    r.options.length = 4 ∧
    r.correct_answer = 3 ∧
    r.is_fallback = true ∧
    (language = Language.english →
      r.question = "What is the main goal of '" ++ goal_description ++ "'?") ∧
    (language = Language.german →
      r.question = "Was ist das Hauptziel von '" ++ goal_description ++ "'?") := by
  dsimp only
  have hr : generate_adaptive_quiz_question goal_description language
      difficulty_level client_available learning_content service_response
      = get_fallback_question goal_description language := by
    unfold generate_adaptive_quiz_question
    rcases hfail with h | h | h
    · rw [h]
      rfl
    · subst h
      cases client_available <;> rfl
    · subst h
      cases client_available <;> rcases learning_content with - | - <;> rfl
  rw [hr]
  refine ⟨rfl, ?_, ?_, ?_, ?_, ?_, ?_⟩ <;>
    cases language <;> simp [get_fallback_question]

/-- C5 witness: the service failing on every call for the goal "Name the
components" still yields the fixed fallback shape. -/
theorem generation_failure_returns_fallback_witness :
    generate_adaptive_quiz_question "Name the components" Language.english
        Difficulty.medium true (some "content") none
      = get_fallback_question "Name the components" Language.english ∧
    (generate_adaptive_quiz_question "Name the components" Language.english
        Difficulty.medium true (some "content") none).options.length = 4 ∧
    (generate_adaptive_quiz_question "Name the components" Language.english
        Difficulty.medium true (some "content") none).correct_answer = 3 := by
  have h := generation_failure_returns_fallback "Name the components"
    Language.english Difficulty.medium true (some "content") none
    (Or.inr (Or.inr rfl))
  exact ⟨h.1, h.2.2.1, h.2.2.2.1⟩

/-- C6: when the external scoring call for an open-ended answer fails, the
submission is not failed: evaluate_answer returns (without raising) the
benefit-of-the-doubt feedback with isCorrect true and score 75. -/
theorem open_ended_failure_benefit_of_doubt (q : QuestionData)
    (user_answer : String)
    (htype : q.question_type = "open_ended")
    (hne : py_strip user_answer ≠ "") :
    evaluate_answer q (UserAnswer.text user_answer) true none =
      Except.ok
        { is_correct := true
        , feedback := "Ihre Antwort wurde eingereicht. " ++ q.explanation
        , score := some 75 } := by
  have hcond : ¬ (true = false ∨ py_strip user_answer = "") := by
    rintro (h | h)
    · exact Bool.noConfusion h
    · exact hne h
  have hopen : evaluate_open_ended q user_answer true none =
      { is_correct := true
      , feedback := "Ihre Antwort wurde eingereicht. " ++ q.explanation
      , score := some 75 } := by
    unfold evaluate_open_ended
    rw [if_neg hcond]
  unfold evaluate_answer
  rw [htype]
  rw [if_neg (by decide : ¬ ("open_ended" = "multiple_choice")), if_pos rfl]
  dsimp only
  rw [hopen]

/-- C6 witness: a concrete open-ended answer with the scoring service
timing out. -/
theorem open_ended_failure_benefit_of_doubt_witness :
    evaluate_answer sample_open_question (UserAnswer.text "Die Krone zeigt es.")
        true none =
      Except.ok
        { is_correct := true
        , feedback := "Ihre Antwort wurde eingereicht. Die Krone zeigt den Hauptstadtstatus an."
        , score := some 75 } := by
  have h := open_ended_failure_benefit_of_doubt sample_open_question
    "Die Krone zeigt es." rfl (by decide)
  exact h

/-- C7: for a fill-blank question with some correct answers and a user
answer list of the same length, evaluation succeeds, each blank is
compared case-insensitively after trimming, isCorrect holds exactly when
every blank matches, and the score is the matched fraction times 100. -/
theorem fill_blank_partial_credit (q : QuestionData) (user_answers : List String)
    (hne : q.correct_answers ≠ [])
    (hlen : user_answers.length = q.correct_answers.length) :
    ∃ fb : Feedback,
      evaluate_fill_blank q user_answers = Except.ok fb ∧
      fb.is_correct = (user_answers.zip q.correct_answers).all blank_matches ∧
      fb.score = some
        (((user_answers.zip q.correct_answers).countP blank_matches : ℚ)
          / (q.correct_answers.length : ℚ) * 100) := by
  have hlen0 : q.correct_answers.length ≠ 0 := by
    intro h
    exact hne (List.length_eq_zero.mp h)
  have hzlen : (user_answers.zip q.correct_answers).length
      = q.correct_answers.length := by
    rw [List.length_zip, hlen, Nat.min_self]
  unfold evaluate_fill_blank
  rw [if_neg (not_not_intro hlen), if_neg hlen0]
  dsimp only
  refine ⟨_, rfl, ?_, rfl⟩
  by_cases hall : (user_answers.zip q.correct_answers).all blank_matches = true
  · rw [hall, decide_eq_true_eq, ← hzlen]
    exact List.countP_eq_length.mpr (fun a ha => List.all_eq_true.mp hall a ha)
  · rw [Bool.not_eq_true] at hall
    rw [hall, decide_eq_false_iff_not]
    intro hc
    have hto : ∀ a ∈ user_answers.zip q.correct_answers, blank_matches a := by
      apply List.countP_eq_length.mp
      rw [hzlen]
      exact hc
    have := List.all_eq_true.mpr hto
    rw [this] at hall
    exact Bool.noConfusion hall

/-- C7 witness: the answers Bayern / Rot against the correct answers
Bayern / rot match case-insensitively, giving a correct result with full
score. -/
theorem fill_blank_partial_credit_witness :
    ∃ fb : Feedback,
      evaluate_fill_blank sample_blank_question ["Bayern", "Rot"] = Except.ok fb ∧
      fb.is_correct = true ∧ fb.score = some 100 := by
  obtain ⟨fb, h1, h2, h3⟩ := fill_blank_partial_credit sample_blank_question
    ["Bayern", "Rot"] (by decide) (by decide)
  refine ⟨fb, h1, ?_, ?_⟩
  · rw [h2]
    decide
  · rw [h3]
    have hc : ((["Bayern", "Rot"].zip sample_blank_question.correct_answers).countP
        blank_matches) = 2 := by decide
    have hl : sample_blank_question.correct_answers.length = 2 := by decide
    rw [hc, hl]
    norm_num

/-- C3 (code-bug evidence): advancing from goal index 0 over a two-goal
content stores True under the int key 1, while the current goal's id
"goal_1" — the key the progress map is seeded and read with — still maps
to false; the pointer move and the last-goal completion signal themselves
behave as specified. -/
theorem advance_marks_int_key_not_goal_id :
    (load_learning_goals "- A\n- B").map LearningGoal.id = ["goal_1", "goal_2"] ∧
    lookup_progress
      (advance_to_next_goal (load_learning_goals "- A\n- B")
        (get_user_progress (load_learning_goals "- A\n- B")) 0).1
      (GoalKey.str_key "goal_1") = some false ∧
    lookup_progress
      (advance_to_next_goal (load_learning_goals "- A\n- B")
        (get_user_progress (load_learning_goals "- A\n- B")) 0).1
      (GoalKey.int_key 1) = some true ∧
    (advance_to_next_goal (load_learning_goals "- A\n- B")
        (get_user_progress (load_learning_goals "- A\n- B")) 0).2
      = AdvanceOutcome.next_goal 1 ∧
    (advance_to_next_goal (load_learning_goals "- A\n- B")
        (get_user_progress (load_learning_goals "- A\n- B")) 1).2
      = AdvanceOutcome.all_complete := by
  decide

/-- C8 counterexample: with a non-bullet heading line in the content, the
first bullet gets number 2, not 1 — numbering follows the line index, not
the bullet count. -/
theorem bullet_numbering_counterexample :
    (load_learning_goals "Lernziele:\n- A\n- B").map LearningGoal.number
      = ["2", "3"] ∧
    ¬ (load_learning_goals "Lernziele:\n- A\n- B").map LearningGoal.number
      = ["1", "2"] := by
  decide

/-- C8 (amended): the k-th bullet line becomes the k-th goal in order, but
its number is the 1-indexed position of its line among all lines of the
stripped content; in particular, when every line is a bullet line the
goals are numbered consecutively 1, 2, ... matching their bullet order. -/
theorem bullet_goals_numbered_by_line (content : String)
    (h : ∀ l ∈ split_lines (py_strip content),
      (['-', ' '].isPrefixOf (py_strip l).data) = true) :
    (load_learning_goals content).map LearningGoal.number
      = (List.range (split_lines (py_strip content)).length).map
          (fun k => toString (k + 1)) ∧
    (load_learning_goals content).map LearningGoal.description
      = (split_lines (py_strip content)).map
          (fun l => py_strip (String.mk ((py_strip l).data.drop 2))) := by
  obtain ⟨h1, h2⟩ := goals_numbering_aux (split_lines (py_strip content)) 0 h
  have henum : (split_lines (py_strip content)).enum
      = List.enumFrom 0 (split_lines (py_strip content)) := rfl
  constructor
  · rw [load_learning_goals, henum, h1, List.range'_eq_map_range, List.map_map]
    apply List.map_congr_left
    intro k _
    simp [Function.comp, Nat.add_comm]
  · rw [load_learning_goals, henum, h2]

/-- C8 witness: a pure bullet list is numbered 1, 2 in bullet order. -/
theorem bullet_goals_numbered_by_line_witness :
    (load_learning_goals "- A\n- B").map LearningGoal.number = ["1", "2"] ∧
    (load_learning_goals "- A\n- B").map LearningGoal.description = ["A", "B"] := by
  obtain ⟨h1, h2⟩ := bullet_goals_numbered_by_line "- A\n- B" (by decide)
  constructor
  · rw [h1]
    decide
  · rw [h2]
    decide

/-- C9: over every interaction sequence from a fresh session, the counter
invariants correctAnswers ≤ attempts and mediumCorrect ≤ mediumAsked hold
after every update, including the counter reset entering the second
round. -/
theorem counters_monotone (events : List QuizEvent) :
    counters_ok (events.foldl quiz_step initial_quiz_state) :=
  counters_ok_foldl events initial_quiz_state ⟨Nat.le_refl 0, Nat.le_refl 0⟩

/-- C10: resubmitting the same on-screen question after an incorrect
answer counts again — attempts and mediumAsked each grow by one (and
mediumCorrect when the retry is correct) while the current question stays
the same; consequently a fresh session reaches the mediumAsked ≥ 3
threshold, and here the second-round transition, with a single distinct
question answered three times. -/
theorem retry_counts_toward_round (s : QuizState) (fb : Feedback)
    (q : QuestionData)
    (hq : s.current_question = some q)
    (hans : s.answered = true)
    (hretry : s.can_retry = true)
    (hdiff : s.difficulty_level = Difficulty.medium)
    (hlow : s.medium_questions_asked + 1 < 3) :
    (click_submit s fb).attempts = s.attempts + 1 ∧
    (click_submit s fb).medium_questions_asked = s.medium_questions_asked + 1 ∧
    (click_submit s fb).medium_questions_correct
      = (if fb.is_correct then s.medium_questions_correct + 1
         else s.medium_questions_correct) ∧
    (click_submit s fb).current_question = some q ∧
    one_question_run.asked_questions.length = 1 ∧
    one_question_run.advancement_phase = Phase.second_round ∧
    one_question_run.attempts = 3 := by
  have he : submit_enabled s = true := by
    unfold submit_enabled
    rw [hans, hretry]
    rfl
  have hrun : one_question_run = check_advancement_logic threshold_state := rfl
  have hreset := check_initial_fail threshold_state rfl (by decide) (by decide)
  have hconc : one_question_run.asked_questions.length = 1 ∧
      one_question_run.advancement_phase = Phase.second_round ∧
      one_question_run.attempts = 3 := by
    rw [hrun, hreset]
    exact ⟨by decide, rfl, rfl⟩
  unfold click_submit
  rw [if_pos he]
  simp only [hans, if_true]
  rw [submit_answer_eq _ fb q, check_below_threshold]
  · exact ⟨rfl, rfl, rfl, hq, hconc⟩
  · exact hlow
  · exact hq
  · exact hdiff

/-- C10 witness: a retry of the same wrong question counts a second
medium answer, and the one-question run completes a full round. -/
theorem retry_counts_toward_round_witness :
    (click_submit mid_retry_state wrong_feedback).attempts = 2 ∧
    (click_submit mid_retry_state wrong_feedback).medium_questions_asked = 2 ∧
    (click_submit mid_retry_state wrong_feedback).medium_questions_correct = 0 ∧
    (click_submit mid_retry_state wrong_feedback).current_question
      = some sample_question ∧
    one_question_run.asked_questions.length = 1 ∧
    one_question_run.advancement_phase = Phase.second_round ∧
    one_question_run.attempts = 3 := by
  have h := retry_counts_toward_round mid_retry_state wrong_feedback
    sample_question rfl rfl rfl rfl (by decide)
  obtain ⟨h1, h2, h3, h4, h5⟩ := h
  refine ⟨h1, h2, ?_, h4, h5⟩
  rw [h3]
  decide

end SigilRag
